import Mathlib

/-!
Verification of the `nws-forecast-summarizer` orchestration pipeline
(`src/routes/mod.rs`), shallowly embedded in Lean.

Modelling conventions:
* Rust `i64` values are `Int`; decoding enforces the i64 range.
* Rust `f64` fields (`Dewpoint.value`, the geocoder coordinates) are
  modelled as `Rat`; no claim computes with these values, they are only
  carried through records.
* `serde_json::Value` is the inductive `Json`; numeric rendering inside
  `Json.render` is a placeholder (no claim depends on how a JSON number
  is printed, numbers never reach a rendered position in any theorem).
* The source deserializes by rendering a `Value` to a string and parsing
  it back (`serde_json::from_str(&v.to_string())`); this round trip is
  modelled as decoding directly from the `Json` value.
* Rust panics (`unwrap` on `None`/`Err`, out-of-bounds `Vec` indexing)
  are the explicit result `Res.panicked` / `Outcome.panicked`.
* The three outbound HTTP bodies and the chat reply are inputs of the
  embedded handler (`Env`); `none` stands for a transport/JSON failure.
-/

namespace NWS

/-- Decimal digits of a natural number, most significant first, modelling
Rust `{}` formatting of unsigned integers.  Structural on the fuel so that
it reduces in the kernel; the initial fuel `n + 1` is always sufficient. -/
def natDigitsCore : Nat → Nat → List Char → List Char
  | 0, _, acc => acc
  | fuel + 1, n, acc =>
    let d := Nat.digitChar (n % 10)
    if n < 10 then d :: acc else natDigitsCore fuel (n / 10) (d :: acc)

/-- Decimal rendering of a natural number (model of Rust integer Display). -/
def natRepr (n : Nat) : String := ⟨natDigitsCore (n + 1) n []⟩

/-- Decimal rendering of an `i64` (model of Rust integer Display). -/
def intRepr : Int → String
  | .ofNat n => natRepr n
  | .negSucc n => "-" ++ natRepr (n + 1)

/-- `relativeHumidity` object of a forecast period (`RelativeHumidity`). -/
structure RelativeHumidity where
  unit_code : String
  value : Int
  deriving Repr, DecidableEq

/-- `dewpoint` object of a forecast period (`Dewpoint`). -/
structure Dewpoint where
  unit_code : String
  value : Rat
  deriving Repr, DecidableEq

/-- `probabilityOfPrecipitation` object of a forecast period. -/
structure ProbabilityOfPrecipitation where
  unit_code : String
  value : Option Int
  deriving Repr, DecidableEq

/-- The `Period` struct of `src/routes/mod.rs` (field-for-field). -/
structure Period where
  detailed_forecast : String
  dewpoint : Dewpoint
  end_time : String
  icon : String
  is_daytime : Bool
  name : String
  number : Int
  probability_of_precipitation : ProbabilityOfPrecipitation
  relative_humidity : RelativeHumidity
  short_forecast : String
  start_time : String
  temperature : Int
  temperature_trend : Option String
  temperature_unit : String
  wind_direction : String
  wind_speed : String
  deriving Repr, DecidableEq

/-- The `SimplifiedForecastPeriod` struct of `src/routes/mod.rs`. -/
structure SimplifiedForecastPeriod where
  detailed_forecast : String
  end_time : String
  name : String
  relative_humidity : String
  start_time : String
  temperature : String
  wind_speed : String
  deriving Repr, DecidableEq

/-- Body of the simplification loop of `forecast` (`src/routes/mod.rs`
lines 151–161): one `SimplifiedForecastPeriod` from one `Period`. -/
def simplify_period (period : Period) : SimplifiedForecastPeriod :=
  { detailed_forecast := period.detailed_forecast
    end_time := period.end_time
    name := period.name
    relative_humidity := intRepr period.relative_humidity.value ++ "%"
    start_time := period.start_time
    temperature := intRepr period.temperature ++ period.temperature_unit
    wind_speed := period.wind_speed ++ " " ++ period.wind_direction }

/-- The simplification loop of `forecast`: push one simplified record per
period, in iteration order. -/
def simplify (periods : List Period) : List SimplifiedForecastPeriod :=
  periods.map simplify_period

/-- `serde_json::Value`.  Numbers are rationals (see the header note). -/
inductive Json where
  | null
  | bool (b : Bool)
  | num (q : Rat)
  | str (s : String)
  | arr (xs : List Json)
  | obj (kvs : List (String × Json))

/-- Model of `serde_json` string escaping for one character. -/
def escapeChar (c : Char) : String :=
  if c = '"' then "\\\""
  else if c = '\\' then "\\\\"
  else if c.toNat = 8 then "\\b"
  else if c.toNat = 9 then "\\t"
  else if c.toNat = 10 then "\\n"
  else if c.toNat = 12 then "\\f"
  else if c.toNat = 13 then "\\r"
  else if c.toNat < 32 then
    "\\u00" ++ ⟨[Nat.digitChar (c.toNat / 16), Nat.digitChar (c.toNat % 16)]⟩
  else String.singleton c

/-- Model of `serde_json` string escaping. -/
def jsonEscape (s : String) : String := String.join (s.data.map escapeChar)

/-- Placeholder rendering of a JSON number (see the header note: no claim
ever renders a number). -/
def ratRender (q : Rat) : String :=
  if q.den = 1 then intRepr q.num else intRepr q.num ++ "/" ++ natRepr q.den

mutual
/-- Model of `serde_json::Value::to_string` (compact rendering). -/
def Json.render : Json → String
  | .null => "null"
  | .bool b => cond b "true" "false"
  | .num q => ratRender q
  | .str s => "\"" ++ jsonEscape s ++ "\""
  | .arr xs => "[" ++ Json.renderElems xs ++ "]"
  | .obj kvs => "\x7b" ++ Json.renderMembers kvs ++ "\x7d"

/-- Comma-separated rendering of array elements. -/
def Json.renderElems : List Json → String
  | [] => ""
  | [x] => Json.render x
  | x :: y :: xs => Json.render x ++ "," ++ Json.renderElems (y :: xs)

/-- Comma-separated rendering of object members. -/
def Json.renderMembers : List (String × Json) → String
  | [] => ""
  | [(k, v)] => "\"" ++ jsonEscape k ++ "\":" ++ Json.render v
  | (k, v) :: m :: kvs =>
    "\"" ++ jsonEscape k ++ "\":" ++ Json.render v ++ ","
      ++ Json.renderMembers (m :: kvs)
end

/-- Model of `serde_json::Value`'s `Index<&str>`: member lookup on an
object, `Null` on a missing member or a non-object. -/
def Json.index (j : Json) (k : String) : Json :=
  match j with
  | .obj kvs =>
    match kvs.lookup k with
    | some v => v
    | none => .null
  | _ => .null

/-- serde deserialization of an `i64` from a JSON value. -/
def decodeI64 (j : Json) : Option Int :=
  match j with
  | .num q =>
    if q.den = 1 ∧ -(2 ^ 63) ≤ q.num ∧ q.num < 2 ^ 63 then some q.num else none
  | _ => none

/-- serde deserialization of an `f64` from a JSON value (number model). -/
def decodeF64 (j : Json) : Option Rat :=
  match j with
  | .num q => some q
  | _ => none

/-- serde deserialization of a `String` from a JSON value. -/
def decodeString (j : Json) : Option String :=
  match j with
  | .str s => some s
  | _ => none

/-- serde deserialization of a `bool` from a JSON value. -/
def decodeBool (j : Json) : Option Bool :=
  match j with
  | .bool b => some b
  | _ => none

/-- serde deserialization of an `Option<String>` field that is present:
`null` is `None`, a string is `Some`, anything else is an error. -/
def decodeOptString (j : Json) : Option (Option String) :=
  match j with
  | .null => some none
  | .str s => some (some s)
  | _ => none

/-- serde deserialization of an `Option<i64>` field that is present. -/
def decodeOptI64 (j : Json) : Option (Option Int) :=
  match j with
  | .null => some none
  | _ => (decodeI64 j).map some

/-- A required struct field: error when missing, decoded when present. -/
def reqField (kvs : List (String × Json)) (k : String)
    (dec : Json → Option α) : Option α :=
  (kvs.lookup k).bind dec

/-- An `Option<_>` struct field: `None` when missing, else decoded. -/
def optField (kvs : List (String × Json)) (k : String)
    (dec : Json → Option (Option α)) : Option (Option α) :=
  match kvs.lookup k with
  | none => some none
  | some v => dec v

/-- serde derive for `Dewpoint` (camelCase keys). -/
def decodeDewpoint (j : Json) : Option Dewpoint :=
  match j with
  | .obj kvs => do
    let uc ← reqField kvs "unitCode" decodeString
    let v ← reqField kvs "value" decodeF64
    pure ⟨uc, v⟩
  | _ => none

/-- serde derive for `ProbabilityOfPrecipitation` (camelCase keys). -/
def decodePop (j : Json) : Option ProbabilityOfPrecipitation :=
  match j with
  | .obj kvs => do
    let uc ← reqField kvs "unitCode" decodeString
    let v ← optField kvs "value" decodeOptI64
    pure ⟨uc, v⟩
  | _ => none

/-- serde derive for `RelativeHumidity` (camelCase keys). -/
def decodeRelativeHumidity (j : Json) : Option RelativeHumidity :=
  match j with
  | .obj kvs => do
    let uc ← reqField kvs "unitCode" decodeString
    let v ← reqField kvs "value" decodeI64
    pure ⟨uc, v⟩
  | _ => none

/-- serde derive for `Period` (camelCase keys, unknown keys ignored,
`temperatureTrend` the only field tolerating absence or `null`). -/
def decodePeriod (j : Json) : Option Period :=
  match j with
  | .obj kvs => do
    let df ← reqField kvs "detailedForecast" decodeString
    let dp ← reqField kvs "dewpoint" decodeDewpoint
    let et ← reqField kvs "endTime" decodeString
    let ic ← reqField kvs "icon" decodeString
    let idt ← reqField kvs "isDaytime" decodeBool
    let nm ← reqField kvs "name" decodeString
    let nr ← reqField kvs "number" decodeI64
    let pop ← reqField kvs "probabilityOfPrecipitation" decodePop
    let rh ← reqField kvs "relativeHumidity" decodeRelativeHumidity
    let sf ← reqField kvs "shortForecast" decodeString
    let st ← reqField kvs "startTime" decodeString
    let tp ← reqField kvs "temperature" decodeI64
    let tt ← optField kvs "temperatureTrend" decodeOptString
    let tu ← reqField kvs "temperatureUnit" decodeString
    let wd ← reqField kvs "windDirection" decodeString
    let ws ← reqField kvs "windSpeed" decodeString
    pure ⟨df, dp, et, ic, idt, nm, nr, pop, rh, sf, st, tp, tt, tu, wd, ws⟩
  | _ => none

/-- serde deserialization of `Vec<Period>`: only an array, every element
must decode (a single malformed period fails the whole vector). -/
def decodePeriods (j : Json) : Option (List Period) :=
  match j with
  | .arr xs => xs.mapM decodePeriod
  | _ => none

/-- The `Coordinates` struct of `src/routes/mod.rs`: serde renames bind
`latitude` to key `y` and `longitude` to key `x`. -/
structure Coordinates where
  latitude : Rat
  longitude : Rat
  deriving Repr, DecidableEq

/-- serde derive for `Coordinates` (`y` → latitude, `x` → longitude). -/
def decodeCoordinates (j : Json) : Option Coordinates :=
  match j with
  | .obj kvs => do
    let la ← reqField kvs "y" decodeF64
    let lo ← reqField kvs "x" decodeF64
    pure ⟨la, lo⟩
  | _ => none

/-- Result of one pipeline stage: Rust `Ok`, Rust `Err`, or a panic
(`unwrap` on `None`/`Err`, out-of-bounds indexing). -/
inductive Res (α : Type) where
  | ok (a : α)
  | err (e : String)
  | panicked

/-- Whether a stage result is a Rust `Err`. -/
def Res.isErr : Res α → Bool
  | .err _ => true
  | _ => false

/-- `geocode_address` of `src/routes/mod.rs` on the JSON body of the
census-geocoder response (`none` body = transport/JSON failure).  The
address only forms the request URL, it does not affect the decision. -/
def geocode_address (_address : String) (body : Option Json) :
    Res Coordinates :=
  match body with
  | none => .err "transport failure"
  | some body_json =>
    match (body_json.index "result").index "addressMatches" with
    | .arr address_matches =>
      match address_matches with
      | [] => .panicked
      | m0 :: _ =>
        match decodeCoordinates (m0.index "coordinates") with
        | some coordinates => .ok coordinates
        | none => .err "serde decode failure"
    | _ => .err "no address matches found"

/-- Removal of one leading quote character, model of Rust
`str::strip_prefix` with pattern `"\""`: `Some` of the rest when the
string starts with a quote, `None` otherwise. -/
def stripQuoteFront (s : String) : Option String :=
  match s.data with
  | '"' :: rest => some ⟨rest⟩
  | _ => none

/-- Removal of one trailing quote character, model of Rust
`str::strip_suffix` with pattern `"\""`: `Some` of the front when the
string ends with a quote, `None` otherwise. -/
def stripQuoteBack (s : String) : Option String :=
  if s.data.getLast? = some '"' then some ⟨s.data.dropLast⟩ else none

/-- `forecast_address_from_coordinates` of `src/routes/mod.rs` on the
JSON body of the points-API response.  The coordinates only form the
request URL.  The two `unwrap`s of the source are the `panicked` arms. -/
def forecast_address_from_coordinates (_coordinates : Coordinates)
    (body : Option Json) : Res String :=
  match body with
  | none => .err "transport failure"
  | some point_json =>
    let forecast_url := ((point_json.index "properties").index "forecast").render
    if forecast_url = "" then .err "no forecast URL found"
    else
      match stripQuoteFront forecast_url with
      | none => .panicked
      | some s1 =>
        match stripQuoteBack s1 with
        | none => .panicked
        | some forecast_url_cleaned => .ok forecast_url_cleaned

/-- `get_forecast_periods` of `src/routes/mod.rs` on the JSON body of the
forecast response.  The source renders `properties.periods` to a string,
checks that string for emptiness, then parses it back into
`Vec<Period>`; the parse-back is modelled as decoding the value. -/
def get_forecast_periods (_forecast_url : String) (body : Option Json) :
    Res (List Period) :=
  match body with
  | none => .err "transport failure"
  | some forecast_json =>
    let periods_value := (forecast_json.index "properties").index "periods"
    let periods_json := periods_value.render
    if periods_json = "" then .err "no forecast periods found"
    else
      match decodePeriods periods_value with
      | some periods => .ok periods
      | none => .err "serde decode failure"

/-- The fixed system instruction (`prompt`, `src/routes/mod.rs` lines 165-175). -/
def chat_system_prompt : String :=
  "\n    You are a tool that can provide concise summaries of weather forecasts.\n    Input is a JSON array with one entry per forecast period.\n    Output is a JSON object with the key \"summary\" containing the overall forecast in at most four sentences.\n    Each entry contains relavant weather information including a detailed text forecast.\n    Do not include any information that is not present in the input.\n    Do not comment twice on the same weather condition.\n    Focus mainly on the daytime periods.\n    Avoid editorializing or making assumptions.\n    Make the output sound like a human wrote it, with concise but friendly language and complete sentences.\n    "

/-- The fixed few-shot user input (`training[0].input`, line 178). -/
def nshot_input : String :=
  "[\x7b\"name\": \"Tonight\", \"start_time\": \"2024-06-08T20:00:00-07:00\", \"end_time\": \"2024-06-09T06:00:00-07:00\", \"temperature\": \"54F\", \"detailed_forecast\": \"Mostly cloudy, with a low around 54. East wind around 2 mph.\", \"relative_humidity\": \"80%\", \"wind_speed\": \"2 mph E\"\x7d, \x7b\"name\": \"Sunday\", \"start_time\": \"2024-06-09T06:00:00-07:00\", \"end_time\": \"2024-06-09T18:00:00-07:00\", \"temperature\": \"74F\", \"detailed_forecast\": \"Mostly sunny. High near 74, with temperatures falling to around 72 in the afternoon. Southwest wind 1 to 6 mph.\", \"relative_humidity\": \"79%\", \"wind_speed\": \"1 to 6 mph SW\"\x7d, \x7b\"name\": \"Sunday Night\", \"start_time\": \"2024-06-09T18:00:00-07:00\", \"end_time\": \"2024-06-10T06:00:00-07:00\", \"temperature\": \"51F\", \"detailed_forecast\": \"Mostly cloudy, with a low around 51. West wind 2 to 6 mph.\", \"relative_humidity\": \"85%\", \"wind_speed\": \"2 to 6 mph W\"\x7d, \x7b\"name\": \"Monday\", \"start_time\": \"2024-06-10T06:00:00-07:00\", \"end_time\": \"2024-06-10T18:00:00-07:00\", \"temperature\": \"71F\", \"detailed_forecast\": \"Mostly sunny, with a high near 71. Southwest wind around 3 mph.\", \"relative_humidity\": \"84%\", \"wind_speed\": \"3 mph SW\"\x7d, \x7b\"name\": \"Monday Night\", \"start_time\": \"2024-06-10T18:00:00-07:00\", \"end_time\": \"2024-06-11T06:00:00-07:00\", \"temperature\": \"52F\", \"detailed_forecast\": \"Partly cloudy, with a low around 52. North wind around 3 mph.\", \"relative_humidity\": \"80%\", \"wind_speed\": \"3 mph N\"\x7d, \x7b\"name\": \"Tuesday\", \"start_time\": \"2024-06-11T06:00:00-07:00\", \"end_time\": \"2024-06-11T18:00:00-07:00\", \"temperature\": \"69F\", \"detailed_forecast\": \"Partly sunny, with a high near 69.\", \"relative_humidity\": \"79%\", \"wind_speed\": \"2 to 7 mph SSW\"\x7d, \x7b\"name\": \"Tuesday Night\", \"start_time\": \"2024-06-11T18:00:00-07:00\", \"end_time\": \"2024-06-12T06:00:00-07:00\", \"temperature\": \"50F\", \"detailed_forecast\": \"Mostly cloudy, with a low around 50.\", \"relative_humidity\": \"83%\", \"wind_speed\": \"2 to 7 mph N\"\x7d, \x7b\"name\": \"Wednesday\", \"start_time\": \"2024-06-12T06:00:00-07:00\", \"end_time\": \"2024-06-12T18:00:00-07:00\", \"temperature\": \"67F\", \"detailed_forecast\": \"Mostly sunny, with a high near 67.\", \"relative_humidity\": \"82%\", \"wind_speed\": \"2 to 7 mph NNW\"\x7d, \x7b\"name\": \"Wednesday Night\", \"start_time\": \"2024-06-12T18:00:00-07:00\", \"end_time\": \"2024-06-13T06:00:00-07:00\", \"temperature\": \"47F\", \"detailed_forecast\": \"Mostly clear, with a low around 47.\", \"relative_humidity\": \"86%\", \"wind_speed\": \"1 to 7 mph N\"\x7d, \x7b\"name\": \"Thursday\", \"start_time\": \"2024-06-13T06:00:00-07:00\", \"end_time\": \"2024-06-13T18:00:00-07:00\", \"temperature\": \"69F\", \"detailed_forecast\": \"Mostly sunny, with a high near 69.\", \"relative_humidity\": \"84%\", \"wind_speed\": \"1 to 7 mph N\"\x7d, \x7b\"name\": \"Thursday Night\", \"start_time\": \"2024-06-13T18:00:00-07:00\", \"end_time\": \"2024-06-14T06:00:00-07:00\", \"temperature\": \"49F\", \"detailed_forecast\": \"Partly cloudy, with a low around 49.\", \"relative_humidity\": \"82%\", \"wind_speed\": \"2 to 7 mph NE\"\x7d, \x7b\"name\": \"Friday\", \"start_time\": \"2024-06-14T06:00:00-07:00\", \"end_time\": \"2024-06-14T18:00:00-07:00\", \"temperature\": \"67F\", \"detailed_forecast\": \"A chance of rain after 11am. Partly sunny, with a high near 67.\", \"relative_humidity\": \"81%\", \"wind_speed\": \"2 to 7 mph SW\"\x7d, \x7b\"name\": \"Friday Night\", \"start_time\": \"2024-06-14T18:00:00-07:00\", \"end_time\": \"2024-06-15T06:00:00-07:00\", \"temperature\": \"48F\", \"detailed_forecast\": \"A chance of rain. Mostly cloudy, with a low around 48.\", \"relative_humidity\": \"89%\", \"wind_speed\": \"3 to 7 mph SSW\"\x7d, \x7b\"name\": \"Saturday\", \"start_time\": \"2024-06-15T06:00:00-07:00\", \"end_time\": \"2024-06-15T18:00:00-07:00\", \"temperature\": \"61F\", \"detailed_forecast\": \"A chance of rain. Partly sunny, with a high near 61.\", \"relative_humidity\": \"89%\", \"wind_speed\": \"6 mph SW\"\x7d]"

/-- The fixed few-shot assistant output (`training[0].output`, line 179). -/
def nshot_output : String :=
  "\x7b\"summary\": \"This week will be mostly sunny and mild, with daytime high temperatures ranging from 61F to 74F. There might be some rain on Friday and Saturday, but it should be light. Humidity will be around 80% to 89%. Winds will be light, mostly from the south and west, up to 7mph.\"\x7d"

/-- The `NShotInOut` struct of `src/routes/mod.rs`. -/
structure NShotInOut where
  input : String
  output : String
  deriving Repr, DecidableEq

/-- The one-element `training` vector built inside `forecast`. -/
def training : List NShotInOut := [⟨nshot_input, nshot_output⟩]

/-- Role of a chat message (`ollama_rs` `ChatMessage` roles). -/
inductive Role where
  | system
  | user
  | assistant
  deriving Repr, DecidableEq

/-- One role-tagged chat message. -/
structure ChatMessage where
  role : Role
  content : String
  deriving Repr, DecidableEq

/-- `ChatMessage::system`. -/
def ChatMessage.system (content : String) : ChatMessage := ⟨Role.system, content⟩

/-- `ChatMessage::user`. -/
def ChatMessage.user (content : String) : ChatMessage := ⟨Role.user, content⟩

/-- `ChatMessage::assistant`. -/
def ChatMessage.assistant (content : String) : ChatMessage := ⟨Role.assistant, content⟩

/-- `ollama_rs` output format directive. -/
inductive FormatType where
  | json
  deriving Repr, DecidableEq

/-- `ollama_rs` `ChatMessageRequest` (model name, messages, format). -/
structure ChatMessageRequest where
  model_name : String
  messages : List ChatMessage
  format : Option FormatType
  deriving Repr, DecidableEq

/-- `ChatMessageRequest::new` (no format directive yet). -/
def ChatMessageRequest.new (model_name : String) (messages : List ChatMessage) :
    ChatMessageRequest :=
  ⟨model_name, messages, none⟩

/-- `ChatMessageRequest::format`: set the output-format directive. -/
def ChatMessageRequest.withFormat (r : ChatMessageRequest) (f : FormatType) :
    ChatMessageRequest :=
  ⟨r.model_name, r.messages, some f⟩

/-- serde serialization of one `SimplifiedForecastPeriod` (no rename
attribute on the struct, so keys are the snake_case field names, in
declaration order, compact separators). -/
def serializeSFP (p : SimplifiedForecastPeriod) : String :=
  "\x7b\"detailed_forecast\":\"" ++ jsonEscape p.detailed_forecast
    ++ "\",\"end_time\":\"" ++ jsonEscape p.end_time
    ++ "\",\"name\":\"" ++ jsonEscape p.name
    ++ "\",\"relative_humidity\":\"" ++ jsonEscape p.relative_humidity
    ++ "\",\"start_time\":\"" ++ jsonEscape p.start_time
    ++ "\",\"temperature\":\"" ++ jsonEscape p.temperature
    ++ "\",\"wind_speed\":\"" ++ jsonEscape p.wind_speed
    ++ "\"\x7d"

/-- serde serialization of `Vec<SimplifiedForecastPeriod>`
(`serde_json::to_string(&simplified_forecast_periods)`). -/
def serializeSFPList (ps : List SimplifiedForecastPeriod) : String :=
  "[" ++ String.intercalate "," (ps.map serializeSFP) ++ "]"

/-- The chat request built by `forecast` (`src/routes/mod.rs` lines
177-203): system prompt, few-shot user input, few-shot assistant output,
then the serialized simplified periods, with JSON output requested. -/
def build_chat_request (ollama_model : String)
    (simplified_forecast_periods : List SimplifiedForecastPeriod) :
    ChatMessageRequest :=
  let simplified_forecast_json := serializeSFPList simplified_forecast_periods
  let forecast_system_prompt := ChatMessage.system chat_system_prompt
  let training_cloned := training
  let training_user := ChatMessage.user (training_cloned.getD 0 ⟨"", ""⟩).input
  let training_assistant :=
    ChatMessage.assistant (training_cloned.getD 0 ⟨"", ""⟩).output
  let query := ChatMessage.user simplified_forecast_json
  (ChatMessageRequest.new ollama_model
    [forecast_system_prompt, training_user, training_assistant, query]).withFormat
    FormatType.json

/-- The external stages contacted by one request, in pipeline order. -/
inductive Stage where
  | geocode
  | locate
  | fetch
  | summarize
  deriving Repr, DecidableEq

/-- Terminal state of one request: axum `Ok(body)`, axum `Err(msg)`, or a
panic of the handling task. -/
inductive Outcome where
  | success (body : String)
  | failure (msg : String)
  | panicked
  deriving Repr, DecidableEq

/-- All request-independent inputs of one `forecast` invocation: the query
parameters and, for each outbound call the handler would make, the JSON
body that call would yield (`none` = transport/JSON failure).  The chat
reply is `none` when the chat call fails, `some none` when the response
carries no message, `some (some content)` otherwise. -/
structure Env where
  params : List (String × String)
  geocode_response : Option Json
  points_response : Option Json
  forecast_response : Option Json
  chat_response : Option (Option String)
  ollama_model : String

/-- What one `forecast` invocation produced: the terminal outcome, the
external stages actually contacted (in order), the call-counter value
after the request, and the chat request sent (when one was sent). -/
structure HandlerResult where
  outcome : Outcome
  calls : List Stage
  counter : Nat
  sent_chat : Option ChatMessageRequest

/-- The `forecast` handler (`src/routes/mod.rs` lines 101-210) over one
request: increment the counter, require the `address` parameter, then
geocode → locate → fetch → simplify → summarize, mapping each stage's
`Err` to its fixed user-facing message and each `unwrap` of a failed
value to a panic. -/
def forecast_handler (env : Env) (counter : Nat) : HandlerResult :=
  let counter' := counter + 1
  match List.lookup "address" env.params with
  | none => ⟨.failure "address parameter is required", [], counter', none⟩
  | some address =>
    match geocode_address address env.geocode_response with
    | .panicked => ⟨.panicked, [.geocode], counter', none⟩
    | .err _ =>
      ⟨.failure "error geocoding address", [.geocode], counter', none⟩
    | .ok coordinates =>
      match forecast_address_from_coordinates coordinates env.points_response with
      | .panicked => ⟨.panicked, [.geocode, .locate], counter', none⟩
      | .err _ =>
        ⟨.failure "error getting forecast URL", [.geocode, .locate], counter',
          none⟩
      | .ok forecast_url =>
        match get_forecast_periods forecast_url env.forecast_response with
        | .panicked =>
          ⟨.panicked, [.geocode, .locate, .fetch], counter', none⟩
        | .err _ =>
          ⟨.failure "error getting forecast periods",
            [.geocode, .locate, .fetch], counter', none⟩
        | .ok periods =>
          let simplified_forecast_periods := simplify periods
          let request :=
            build_chat_request env.ollama_model simplified_forecast_periods
          match env.chat_response with
          | none =>
            ⟨.panicked, [.geocode, .locate, .fetch, .summarize], counter',
              some request⟩
          | some none =>
            ⟨.panicked, [.geocode, .locate, .fetch, .summarize], counter',
              some request⟩
          | some (some content) =>
            ⟨.success content, [.geocode, .locate, .fetch, .summarize],
              counter', some request⟩


/-- Geocoder body with one address match at x = -77, y = 38. -/
def gc_ok_body : Json :=
  Json.obj [("result", Json.obj [("addressMatches", Json.arr
    [Json.obj [("coordinates",
      Json.obj [("x", Json.num (-77)), ("y", Json.num 38)])]])])]

/-- Geocoder body whose `addressMatches` is the empty array. -/
def gc_empty_matches_body : Json :=
  Json.obj [("result", Json.obj [("addressMatches", Json.arr [])])]

/-- Points body carrying a forecast URL. -/
def pts_ok_body : Json :=
  Json.obj [("properties", Json.obj [("forecast",
    Json.str "https://api.weather.gov/gridpoints/SEW/124,67/forecast")])]

/-- Points body whose `properties.forecast` member is missing. -/
def pts_missing_body : Json := Json.obj [("properties", Json.obj [])]

/-- Points body whose `properties.forecast` is the empty string. -/
def pts_empty_str_body : Json :=
  Json.obj [("properties", Json.obj [("forecast", Json.str "")])]

/-- Forecast body whose `properties.periods` is the empty array. -/
def fc_empty_periods_body : Json :=
  Json.obj [("properties", Json.obj [("periods", Json.arr [])])]

/-- A request environment whose three upstream calls all succeed, the
forecast service answering with zero periods and the chat service with a
summary. -/
def env_empty_periods : Env :=
  ⟨[("address", "1600 Pennsylvania Ave NW, Washington, DC")],
    some gc_ok_body, some pts_ok_body, some fc_empty_periods_body,
    some (some "summary text"), "llama3"⟩

/-- Environment whose points response lacks `properties.forecast`. -/
def env_missing_forecast_url : Env :=
  ⟨[("address", "a")], some gc_ok_body, some pts_missing_body,
    some fc_empty_periods_body, some (some "s"), "llama3"⟩

/-- Environment whose geocoder response has zero address matches. -/
def env_empty_matches : Env :=
  ⟨[("address", "a")], some gc_empty_matches_body, some pts_ok_body,
    some fc_empty_periods_body, some (some "s"), "llama3"⟩

/-- Environment whose `address` query parameter is the empty string. -/
def env_empty_address : Env :=
  ⟨[("address", "")], some gc_ok_body, some pts_ok_body,
    some fc_empty_periods_body, some (some "s"), "llama3"⟩

/-- Environment whose chat-completion call fails. -/
def env_chat_fail : Env :=
  ⟨[("address", "a")], some gc_ok_body, some pts_ok_body,
    some fc_empty_periods_body, none, "llama3"⟩

/-- A fully populated `periods` element, the serde camelCase key set of
`Period`, with `temperatureTrend` null and
`probabilityOfPrecipitation.value` null. -/
def basePeriodKvs : List (String × Json) :=
  [("detailedForecast", Json.str "Mostly sunny, with a high near 74."),
   ("dewpoint", Json.obj [("unitCode", Json.str "wmoUnit:degC"),
      ("value", Json.num 12)]),
   ("endTime", Json.str "2024-06-09T18:00:00-07:00"),
   ("icon", Json.str "https://api.weather.gov/icons/land/day/few"),
   ("isDaytime", Json.bool true),
   ("name", Json.str "Sunday"),
   ("number", Json.num 2),
   ("probabilityOfPrecipitation",
      Json.obj [("unitCode", Json.str "wmoUnit:percent"),
        ("value", Json.null)]),
   ("relativeHumidity", Json.obj [("unitCode", Json.str "wmoUnit:percent"),
      ("value", Json.num 79)]),
   ("shortForecast", Json.str "Mostly Sunny"),
   ("startTime", Json.str "2024-06-09T06:00:00-07:00"),
   ("temperature", Json.num 74),
   ("temperatureTrend", Json.null),
   ("temperatureUnit", Json.str "F"),
   ("windDirection", Json.str "SW"),
   ("windSpeed", Json.str "1 to 6 mph")]

/-- Removal of one member from a JSON object's member list. -/
def removeKey (kvs : List (String × Json)) (k : String) :
    List (String × Json) :=
  kvs.filter (fun kv => kv.1 != k)

/-- The fifteen `Period` fields serde requires to be present (every field
except `temperatureTrend`). -/
def requiredPeriodKeys : List String :=
  ["detailedForecast", "dewpoint", "endTime", "icon", "isDaytime", "name",
   "number", "probabilityOfPrecipitation", "relativeHumidity",
   "shortForecast", "startTime", "temperature", "temperatureUnit",
   "windDirection", "windSpeed"]


lemma natDigitsCore_digits (fuel : Nat) :
    ∀ (n : Nat) (acc : List Char),
      (∀ c ∈ acc, 48 ≤ c.toNat ∧ c.toNat ≤ 57) →
      ∀ c ∈ natDigitsCore fuel n acc, 48 ≤ c.toNat ∧ c.toNat ≤ 57 := by
  induction fuel with
  | zero => intro n acc hacc; simpa [natDigitsCore] using hacc
  | succ f ih =>
    intro n acc hacc
    have hd : 48 ≤ (Nat.digitChar (n % 10)).toNat ∧
        (Nat.digitChar (n % 10)).toNat ≤ 57 := by
      have h10 : n % 10 < 10 := Nat.mod_lt _ (by omega)
      interval_cases h : (n % 10) <;> decide
    have hcons : ∀ c ∈ (Nat.digitChar (n % 10) :: acc),
        48 ≤ c.toNat ∧ c.toNat ≤ 57 := by
      intro c hc
      rcases List.mem_cons.mp hc with rfl | hc
      · exact hd
      · exact hacc c hc
    simp only [natDigitsCore]
    split
    · exact hcons
    · exact ih (n / 10) _ hcons

lemma natRepr_digits (n : Nat) :
    ∀ c ∈ (natRepr n).data, 48 ≤ c.toNat ∧ c.toNat ≤ 57 := by
  intro c hc
  exact natDigitsCore_digits (n + 1) n [] (by simp) c hc

lemma char_digit_not_ws (c : Char) (h : 48 ≤ c.toNat ∧ c.toNat ≤ 57) :
    c.isWhitespace = false := by
  have h1 : c ≠ ' ' := fun h' => by subst h'; revert h; decide
  have h2 : c ≠ '\t' := fun h' => by subst h'; revert h; decide
  have h3 : c ≠ '\r' := fun h' => by subst h'; revert h; decide
  have h4 : c ≠ '\n' := fun h' => by subst h'; revert h; decide
  simp [Char.isWhitespace, h1, h2, h3, h4]

lemma intRepr_no_whitespace (z : Int) :
    ((intRepr z).data.all fun c => !c.isWhitespace) = true := by
  rw [List.all_eq_true]
  intro c hc
  cases z with
  | ofNat n =>
    have h := natRepr_digits n c hc
    simp [char_digit_not_ws c h]
  | negSucc n =>
    simp only [intRepr] at hc
    have hsplit : ("-" ++ natRepr (n + 1)).data
        = '-' :: (natRepr (n + 1)).data := by
      rfl
    rw [hsplit] at hc
    rcases List.mem_cons.mp hc with rfl | hc
    · decide
    · have h := natRepr_digits (n + 1) c hc
      simp [char_digit_not_ws c h]

/-- Claim C1: the Period Simplifier is a total, order-preserving map that
yields exactly one `SimplifiedForecastPeriod` per `ForecastPeriod`, copies
`name`, `startTime`, `endTime` and `detailedForecast` unchanged, and
formats `temperature` as the value rendered in decimal directly followed
by the unit (no separator, the numeric part whitespace-free), `windSpeed`
as speed, one space, direction, and `relativeHumidity` as the value in
decimal followed by a percent sign (whitespace-free numeric part). -/
theorem simplify_preserves_length_order_and_formats
    (ps : List Period) (p : Period) :
    simplify ps = ps.map simplify_period ∧
    (simplify ps).length = ps.length ∧
    (simplify_period p).name = p.name ∧
    (simplify_period p).start_time = p.start_time ∧
    (simplify_period p).end_time = p.end_time ∧
    (simplify_period p).detailed_forecast = p.detailed_forecast ∧
    (simplify_period p).temperature = intRepr p.temperature ++ p.temperature_unit ∧
    (simplify_period p).wind_speed = p.wind_speed ++ " " ++ p.wind_direction ∧
    (simplify_period p).relative_humidity = intRepr p.relative_humidity.value ++ "%" ∧
    ((intRepr p.temperature).data.all fun c => !c.isWhitespace) = true ∧
    ((intRepr p.relative_humidity.value).data.all fun c => !c.isWhitespace) = true ∧
    ('%'.isWhitespace = false) := by
  refine ⟨rfl, by simp [simplify], rfl, rfl, rfl, rfl, rfl, rfl, rfl,
    intRepr_no_whitespace _, intRepr_no_whitespace _, by decide⟩

/-- Claim C8: every invocation of the forecast endpoint increments the
call counter by exactly one, at entry, whatever the outcome; the handler
never decrements or resets it. -/
theorem counter_increments_once (env : Env) (c : Nat) :
    (forecast_handler env c).counter = c + 1 := by
  unfold forecast_handler
  repeat' split
  all_goals rfl

/-- Claim C5 (amended): a present-but-empty `address` parameter is not
rejected by the orchestrator; the request proceeds and the Geocoder
Client is invoked, so the missing-parameter rejection never fires. -/
theorem empty_address_reaches_geocoder (env : Env) (c : Nat)
    (h : List.lookup "address" env.params = some "") :
    Stage.geocode ∈ (forecast_handler env c).calls ∧
    (forecast_handler env c).outcome ≠
      Outcome.failure "address parameter is required" := by
  unfold forecast_handler
  rw [h]
  constructor
  · repeat' split
    all_goals simp_all
  · repeat' split
    all_goals simp_all

/-- Witness for the amended claim C5 at a concrete environment whose
`address` parameter is the empty string. -/
theorem empty_address_reaches_geocoder_witness :
    Stage.geocode ∈ (forecast_handler env_empty_address 0).calls ∧
    (forecast_handler env_empty_address 0).outcome ≠
      Outcome.failure "address parameter is required" :=
  empty_address_reaches_geocoder env_empty_address 0 rfl

/-- Counterexample to claim C5 as stated: in `env_empty_address` the
`address` parameter is present and empty, yet the request is not rejected
before geocoding — the Geocoder Client is called. -/
theorem empty_address_claim_counterexample :
    List.lookup "address" env_empty_address.params = some "" ∧
    Stage.geocode ∈ (forecast_handler env_empty_address 0).calls := by
  refine ⟨rfl, ?_⟩
  have hc : (forecast_handler env_empty_address 0).calls =
      [Stage.geocode, Stage.locate, Stage.fetch, Stage.summarize] := rfl
  rw [hc]
  simp

/-- Claim C2: whenever a request reaches the Summarizer, the chat request
sent to the model is built from exactly four messages — the fixed system
prompt, the fixed few-shot user input, the fixed few-shot assistant
output, and a user message holding the JSON serialization of the
request's simplified periods — with JSON output requested; the 2nd and
3rd messages are the few-shot constants, independent of the forecast. -/
theorem chat_request_messages (env : Env) (c : Nat)
    (req : ChatMessageRequest) (ps : List Period)
    (hreq : (forecast_handler env c).sent_chat = some req)
    (hfetch : get_forecast_periods "" env.forecast_response = Res.ok ps) :
    req = build_chat_request env.ollama_model (simplify ps) ∧
    req.model_name = env.ollama_model ∧
    req.messages = [ChatMessage.system chat_system_prompt,
      ChatMessage.user nshot_input, ChatMessage.assistant nshot_output,
      ChatMessage.user (serializeSFPList (simplify ps))] ∧
    req.messages.length = 4 ∧
    req.format = some FormatType.json := by
  unfold forecast_handler at hreq
  split at hreq
  · simp at hreq
  · split at hreq
    · simp at hreq
    · simp at hreq
    · split at hreq
      · simp at hreq
      · simp at hreq
      · split at hreq
        · simp at hreq
        · simp at hreq
        · rename_i periods hper
          have hper2 : get_forecast_periods "" env.forecast_response =
              Res.ok periods := hper
          have hps : periods = ps := by
            have h5 := hper2.symm.trans hfetch
            injection h5
          subst hps
          split at hreq <;>
            · simp only [Option.some.injEq] at hreq
              subst hreq
              exact ⟨rfl, rfl, rfl, rfl, rfl⟩

/-- Witness for claim C2: a concrete environment that reaches the
Summarizer (zero decoded periods), with the concrete built request. -/
theorem chat_request_messages_witness :
    build_chat_request "llama3" [] =
      build_chat_request env_empty_periods.ollama_model (simplify []) ∧
    (build_chat_request "llama3" []).model_name =
      env_empty_periods.ollama_model ∧
    (build_chat_request "llama3" []).messages =
      [ChatMessage.system chat_system_prompt, ChatMessage.user nshot_input,
        ChatMessage.assistant nshot_output,
        ChatMessage.user (serializeSFPList (simplify []))] ∧
    (build_chat_request "llama3" []).messages.length = 4 ∧
    (build_chat_request "llama3" []).format = some FormatType.json :=
  chat_request_messages env_empty_periods 0 (build_chat_request "llama3" [])
    [] rfl rfl

/-- Claim C9: when the pipeline reaches the Summarizer and the chat call
fails or its response carries no message, the handler panics for that
request instead of returning a request-scoped failure message. -/
theorem chat_failure_panics (env : Env) (c : Nat)
    (hsum : Stage.summarize ∈ (forecast_handler env c).calls)
    (hchat : env.chat_response = none ∨ env.chat_response = some none) :
    (forecast_handler env c).outcome = Outcome.panicked := by
  unfold forecast_handler at hsum ⊢
  split at hsum
  · simp at hsum
  · split at hsum
    · simp at hsum
    · simp at hsum
    · split at hsum
      · simp at hsum
      · simp at hsum
      · split at hsum
        · simp at hsum
        · simp at hsum
        · rcases hchat with hchat | hchat <;> simp_all

/-- Witness for claim C9 at a concrete environment whose chat call
fails. -/
theorem chat_failure_panics_witness :
    (forecast_handler env_chat_fail 0).outcome = Outcome.panicked :=
  chat_failure_panics env_chat_fail 0 (by
    have hc : (forecast_handler env_chat_fail 0).calls =
        [Stage.geocode, Stage.locate, Stage.fetch, Stage.summarize] := rfl
    rw [hc]; simp) (Or.inl rfl)

/-- Claim C3 (code bug): a forecast response whose `properties.periods`
is the empty array does not fail the fetch — the dead string-emptiness
check never fires, the empty array decodes to zero periods, the pipeline
proceeds and the Summarizer is invoked. -/
theorem empty_periods_fetch_succeeds :
    get_forecast_periods "" (some fc_empty_periods_body) = Res.ok [] ∧
    Stage.summarize ∈ (forecast_handler env_empty_periods 0).calls ∧
    (forecast_handler env_empty_periods 0).outcome =
      Outcome.success "summary text" := by
  refine ⟨rfl, ?_, rfl⟩
  have hc : (forecast_handler env_empty_periods 0).calls =
      [Stage.geocode, Stage.locate, Stage.fetch, Stage.summarize] := rfl
  rw [hc]
  simp

/-- Claim C4 (code bug): a points response without `properties.forecast`
renders the field as the string `null`, the dead emptiness check does not
fire, and the `strip_prefix` unwrap panics instead of yielding the
claimed locate failure; a present-but-empty forecast string succeeds with
the empty URL instead of failing. -/
theorem missing_forecast_url_panics :
    forecast_address_from_coordinates ⟨38, -77⟩ (some pts_missing_body) =
      Res.panicked ∧
    forecast_address_from_coordinates ⟨38, -77⟩ (some pts_empty_str_body) =
      Res.ok "" ∧
    (forecast_handler env_missing_forecast_url 0).outcome =
      Outcome.panicked ∧
    (forecast_handler env_missing_forecast_url 0).outcome ≠
      Outcome.failure "error getting forecast URL" := by
  refine ⟨rfl, rfl, rfl, ?_⟩
  have ho : (forecast_handler env_missing_forecast_url 0).outcome =
      Outcome.panicked := rfl
  rw [ho]
  simp

/-- Claim C6: a geocoder response whose `result.addressMatches` is a
non-empty array whose first entry carries a coordinates object with
numeric `x` and `y` yields `Coordinates` with latitude `y` and longitude
`x`. -/
theorem geocode_first_match_coordinates (address : String)
    (body m0 : Json) (ms : List Json) (x y : Rat)
    (h1 : (body.index "result").index "addressMatches" =
      Json.arr (m0 :: ms))
    (h2 : m0.index "coordinates" =
      Json.obj [("x", Json.num x), ("y", Json.num y)]) :
    geocode_address address (some body) = Res.ok ⟨y, x⟩ := by
  simp [geocode_address, h1, h2, decodeCoordinates, reqField, decodeF64,
    List.lookup]

/-- Witness for claim C6 at the concrete one-match geocoder body. -/
theorem geocode_first_match_coordinates_witness :
    geocode_address "1600 Pennsylvania Ave NW" (some gc_ok_body) =
      Res.ok ⟨38, -77⟩ :=
  geocode_first_match_coordinates "1600 Pennsylvania Ave NW" gc_ok_body
    (Json.obj [("coordinates",
      Json.obj [("x", Json.num (-77)), ("y", Json.num 38)])]) [] (-77) 38
    rfl rfl

/-- Claim C7 (code bug): an absent or non-array `addressMatches` does
fail the geocode stage as claimed, but the empty array panics on the
out-of-bounds `address_matches[0]` instead of failing, so the user never
receives the claimed error message for that input. -/
theorem empty_address_matches_panics :
    geocode_address "a" (some gc_empty_matches_body) = Res.panicked ∧
    geocode_address "a" (some (Json.obj [])) =
      Res.err "no address matches found" ∧
    (forecast_handler env_empty_matches 0).outcome = Outcome.panicked ∧
    Stage.locate ∉ (forecast_handler env_empty_matches 0).calls := by
  refine ⟨rfl, rfl, rfl, ?_⟩
  have hc : (forecast_handler env_empty_matches 0).calls =
      [Stage.geocode] := rfl
  rw [hc]
  simp

/-- Claim C10: decoding a periods element tolerates an absent or null
`temperatureTrend` (and a null `probabilityOfPrecipitation.value`), while
dropping any one of the fifteen required fields makes the element — and
with it the whole fetch — fail to decode. -/
theorem period_decode_field_requirements :
    (decodePeriod (Json.obj basePeriodKvs)).isSome = true ∧
    (decodePeriod
      (Json.obj (removeKey basePeriodKvs "temperatureTrend"))).isSome = true ∧
    (requiredPeriodKeys.all fun k =>
      (decodePeriod (Json.obj (removeKey basePeriodKvs k))).isNone) = true ∧
    (get_forecast_periods "" (some (Json.obj [("properties",
      Json.obj [("periods",
        Json.arr [Json.obj (removeKey basePeriodKvs "name")])])]))).isErr
      = true := by
  exact ⟨rfl, rfl, rfl, rfl⟩

end NWS
